import Mathlib

/-!
Verification of the insightflo-api personalization core.

This file gives a shallow embedding, in Lean, of the personalization /
ranking / caching engine of the repository and proves (or refutes) the
spec's claims about it.  The embedded functions are translated from:

* `src/utils/personalization.ts` — `rankAndFilterArticles`,
  `calculateRelevanceScore`, `createPersonalizationContext`;
* `src/app/api/news/personalized/route.ts` — query parsing, the
  `sortBy` branch, pagination and the `hasMore` computation;
* `src/utils/errors.ts` — `validatePagination`;
* `src/utils/cache.ts` — the in-memory `Map` cache and its wrappers;
* `src/utils/database.ts` — the data accessors and the
  Supabase-to-Flutter article transformation.

Modelling conventions:

* JavaScript numbers are modelled as `ℚ` (scores, sentiment) or `Int`
  (timestamps, counts); `NaN` is modelled as `Option.none` where it can
  arise (`parseInt` / `parseFloat` failures), and `Math.max` / `Math.min`
  propagate it, as in JavaScript.
* `Math.random()` is modelled by an ambient stream of draws
  `rng : ℕ → ℚ`: the i-th call of `Math.random()` during one ranking
  pass returns `rng i`.  The stream is *not* one of the program's
  declared inputs — it is nondeterministic state of the runtime.
* ISO-8601 timestamp strings (`published_at`) are embedded by their
  parsed epoch value in milliseconds (`Int`); lexicographic order on the
  strings agrees with numeric order on the embedded values.
* `Array.prototype.sort` (ES2019+: a *stable* sort by the comparator) is
  modelled by `List.mergeSort` with the Boolean relation induced by the
  comparator.
-/

namespace InsightFlo

/-! ## Data model (src/utils/database.ts interfaces) -/

/-- `UserInterest` record (database.ts). -/
structure UserInterest where
  id : String
  user_id : String
  interest_category : String
  interest_keywords : Option (List String)
  priority_level : Option Int
  created_at : Int
  updated_at : Option Int
deriving DecidableEq, Repr

/-- `UserPortfolio` record (database.ts). -/
structure UserPortfolio where
  id : String
  user_id : String
  stock_code : String
  stock_name : String
  weight : Option ℚ
  purchase_price : Option ℚ
  quantity : Option ℚ
  created_at : Int
  updated_at : Option Int
deriving DecidableEq, Repr

/-- `UserNewsHistory` record (database.ts).  The free-form
`interaction_metadata` field is embedded as a plain string. -/
structure UserNewsHistory where
  id : String
  user_id : String
  news_article_id : String
  relevance_score : Option ℚ
  interest_match_keywords : Option (List String)
  is_read : Option Bool
  is_bookmarked : Option Bool
  is_liked : Option Bool
  read_at : Option Int
  recommendation_reason : Option String
  interaction_metadata : Option String
  created_at : Int
  updated_at : Option Int
deriving DecidableEq, Repr

/-- `SupabaseNewsArticle` row (database.ts): the raw shape stored in the
`news_articles` table.  The `any`-typed `keywords` union is embedded by
its array case (the `transformSupabaseToFlutter` string and fallback
cases are noted at the transformation); `tags` likewise. -/
structure SupabaseNewsArticle where
  id : String
  title : String
  summary : String
  content : String
  url : String
  published_at : Int
  category : Option String
  tags : List String
  source_domain : Option String
  author : Option String
  language : String
  created_at : Int
  updated_at : Int
  summary_quality_score : ℚ
  is_active : Bool
  summary_lines : List String
  sentiment : Option String
  impact_level : String
  keywords : List String
  related_stocks : List String
  related_sectors : List String
  ai_provider : String
  processed_at : Int
deriving DecidableEq, Repr

/-- `DatabaseNewsArticle` (database.ts): the Flutter-compatible article
shape consumed by the ranking engine. -/
structure DatabaseNewsArticle where
  id : String
  title : String
  summary : String
  content : String
  url : String
  source : String
  published_at : Int
  keywords : String
  image_url : Option String
  sentiment_score : ℚ
  sentiment_label : String
  relevance_score : Option ℚ
deriving DecidableEq, Repr

/-! ## Randomness model -/

/-- The ambient stream of `Math.random()` draws: the i-th call during a
ranking pass returns `rng i`.  A real draw lies in `[0, 1)`; the stream
is runtime state, never a declared input of the program. -/
abbrev RandomStream := ℕ → ℚ

/-! ## src/utils/personalization.ts -/

/-- `PersonalizationContext.performanceMetrics` (personalization.ts). -/
structure PerformanceMetrics where
  processingTime : ℚ
  algorithmsUsed : List String
deriving DecidableEq, Repr

/-- `PersonalizationContext` (personalization.ts). -/
structure PersonalizationContext where
  performanceMetrics : PerformanceMetrics
deriving DecidableEq, Repr

/-- `createPersonalizationContext` (personalization.ts lines 12-24):
ignores all four inputs and returns the fixed record. -/
def createPersonalizationContext (_userInterests : List UserInterest)
    (_userPortfolio : List UserPortfolio) (_userHistory : List UserNewsHistory)
    (_articles : List DatabaseNewsArticle) : PersonalizationContext :=
  { performanceMetrics := { processingTime := 0, algorithmsUsed := ["basic-ranking"] } }

/-- The `weights` option bundle of `rankAndFilterArticles`. -/
structure AlgorithmWeights where
  keywordMatch : ℚ
  symbolMatch : ℚ
  sentimentWeight : ℚ
  timeDecay : ℚ
deriving DecidableEq, Repr

/-- The `options` parameter of `rankAndFilterArticles`
(personalization.ts lines 31-42); every field is optional in the
source. -/
structure RankOptions where
  minRelevanceScore : Option ℚ
  maxAge : Option ℚ
  includeBookmarks : Option Bool
  weights : Option AlgorithmWeights
  context : Option PersonalizationContext
deriving DecidableEq, Repr

/-- The `articles.map(...)` stage of `rankAndFilterArticles`
(personalization.ts lines 45-47): each article is annotated with
`relevance_score = Math.random() * 0.8 + 0.2`; the article at position
`i` consumes the i-th draw of the stream. -/
def scoreArticles (rng : RandomStream) (articles : List DatabaseNewsArticle) :
    List DatabaseNewsArticle :=
  articles.enum.map fun p => { p.2 with relevance_score := some (rng p.1 * (4/5) + 1/5) }

/-- The sort comparator of `rankAndFilterArticles` (personalization.ts
line 48): `(a, b) => (b.relevance_score || 0) - (a.relevance_score || 0)`,
i.e. descending by score with a missing score read as `0`.  (`|| 0` also
maps an explicit score `0` to `0`, so `Option.getD 0` is exact.) -/
def relevanceLe (a b : DatabaseNewsArticle) : Bool :=
  decide (b.relevance_score.getD 0 ≤ a.relevance_score.getD 0)

/-- `rankAndFilterArticles` (personalization.ts lines 26-49).  Despite
its name and its `options` parameter, the body ignores the interests,
portfolio, history, weights and `minRelevanceScore`: it assigns each
article a random score in `[0.2, 1.0)` and stable-sorts by that score
descending.  No filtering of any kind is performed. -/
def rankAndFilterArticles (rng : RandomStream) (articles : List DatabaseNewsArticle)
    (_userInterests : List UserInterest) (_userPortfolio : List UserPortfolio)
    (_userHistory : List UserNewsHistory) (_options : RankOptions) :
    List DatabaseNewsArticle :=
  (scoreArticles rng articles).mergeSort relevanceLe

/-- `calculateRelevanceScore` (personalization.ts lines 51-58):
`Math.random() * 0.8 + 0.2`, ignoring every declared input. -/
def calculateRelevanceScore (rng : RandomStream) (_article : DatabaseNewsArticle)
    (_userInterests : List UserInterest) (_userPortfolio : List UserPortfolio)
    (_userHistory : List UserNewsHistory) : ℚ :=
  rng 0 * (4/5) + 1/5

/-! ## src/app/api/news/personalized/route.ts — ranking branch -/

/-- The two sort modes of the handler (route.ts line 121). -/
inductive SortBy where
  | relevance
  | latest
deriving DecidableEq, Repr

/-- The `sortBy === 'latest'` comparator (route.ts line 210):
`(a, b) => new Date(b.published_at).getTime() - new Date(a.published_at).getTime()`,
i.e. descending by publication timestamp. -/
def latestLe (a b : DatabaseNewsArticle) : Bool :=
  decide (b.published_at ≤ a.published_at)

/-- The fixed weight bundle the handler passes (route.ts lines 220-225). -/
def handlerWeights : AlgorithmWeights :=
  { keywordMatch := 2/5, symbolMatch := 3/10, sentimentWeight := 1/5, timeDecay := 1/10 }

/-- The options record the handler passes to `rankAndFilterArticles`
(route.ts lines 216-227), with its fixed `minRelevanceScore: 0.05`. -/
def handlerRankOptions (maxAge : ℚ) (includeBookmarks : Bool)
    (ctx : PersonalizationContext) : RankOptions :=
  { minRelevanceScore := some (1/20)
    maxAge := some maxAge
    includeBookmarks := some includeBookmarks
    weights := some handlerWeights
    context := some ctx }

/-- The `rankedArticles` computation of the handler (route.ts lines
209-228): `sortBy === 'latest'` sorts by publication timestamp
descending without scoring; otherwise `rankAndFilterArticles` runs with
the handler's fixed options. -/
def handlerRankedArticles (sortBy : SortBy) (rng : RandomStream)
    (articles : List DatabaseNewsArticle) (userInterests : List UserInterest)
    (userPortfolio : List UserPortfolio) (userHistory : List UserNewsHistory)
    (maxAge : ℚ) (includeBookmarks : Bool) : List DatabaseNewsArticle :=
  match sortBy with
  | .latest => articles.mergeSort latestLe
  | .relevance =>
      rankAndFilterArticles rng articles userInterests userPortfolio userHistory
        (handlerRankOptions maxAge includeBookmarks
          (createPersonalizationContext userInterests userPortfolio userHistory articles))

/-! ## src/app/api/news/personalized/route.ts — pagination -/

/-- The pagination slice (route.ts lines 234-236):
`startIndex = (page-1)*limit`, `endIndex = startIndex+limit`,
`rankedArticles.slice(startIndex, endIndex)`. -/
def paginate {α : Type} (ranked : List α) (page limit : ℕ) : List α :=
  let startIndex := (page - 1) * limit
  let endIndex := startIndex + limit
  (ranked.drop startIndex).take (endIndex - startIndex)

/-- The `hasMore` flag of the response (route.ts line 285):
`endIndex < rankedArticles.length`. -/
def pageHasMore {α : Type} (ranked : List α) (page limit : ℕ) : Bool :=
  let startIndex := (page - 1) * limit
  let endIndex := startIndex + limit
  decide (endIndex < ranked.length)

/-! ## JavaScript numeric-parsing primitives

`parseInt` / `parseFloat` return `NaN` on a non-numeric prefix; `NaN` is
modelled as `none`, and `Math.max` / `Math.min` propagate it. -/

/-- Decimal value of a digit list (most significant first). -/
def digitsVal (ds : List Char) : ℕ :=
  ds.foldl (fun a c => a * 10 + (c.toNat - 48)) 0

/-- `parseInt(s)` (radix 10): skip leading whitespace, optional sign,
then the longest digit prefix; `NaN` (`none`) when no digit follows. -/
def parseIntJS (s : String) : Option Int :=
  let core : Int → List Char → Option Int := fun sign cs =>
    let ds := cs.takeWhile (fun c => c.isDigit)
    if ds.isEmpty then none else some (sign * (digitsVal ds : Int))
  match s.toList.dropWhile (fun c => c.isWhitespace) with
  | '-' :: rest => core (-1) rest
  | '+' :: rest => core 1 rest
  | cs => core 1 cs

/-- `parseFloat(s)`: skip leading whitespace, optional sign, digit
prefix, optional fraction after a dot; `NaN` (`none`) when neither
integer nor fraction digits are present.  Exponent notation is not
modelled (no claim exercises it). -/
def parseFloatJS (s : String) : Option ℚ :=
  let core : ℚ → List Char → Option ℚ := fun sign cs =>
    let intDs := cs.takeWhile (fun c => c.isDigit)
    let rest := cs.drop intDs.length
    let fracDs := match rest with
      | '.' :: rest2 => rest2.takeWhile (fun c => c.isDigit)
      | _ => []
    if intDs.isEmpty && fracDs.isEmpty then none
    else some (sign * ((digitsVal intDs : ℚ) + (digitsVal fracDs : ℚ) / (10 : ℚ) ^ fracDs.length))
  match s.toList.dropWhile (fun c => c.isWhitespace) with
  | '-' :: rest => core (-1) rest
  | '+' :: rest => core 1 rest
  | cs => core 1 cs

/-- `Math.max(c, x)` with possibly-NaN `x`: NaN propagates. -/
def jsMaxI (c : Int) (x : Option Int) : Option Int := x.map (fun v => max c v)

/-- `Math.min(c, x)` with possibly-NaN `x`: NaN propagates. -/
def jsMinI (c : Int) (x : Option Int) : Option Int := x.map (fun v => min c v)

/-- `Math.max(c, x)` over `ℚ` with possibly-NaN `x`. -/
def jsMaxQ (c : ℚ) (x : Option ℚ) : Option ℚ := x.map (fun v => max c v)

/-- `Math.min(c, x)` over `ℚ` with possibly-NaN `x`. -/
def jsMinQ (c : ℚ) (x : Option ℚ) : Option ℚ := x.map (fun v => min c v)

/-- JavaScript string truthiness of `searchParams.get(k)`: `null`
(absent) and the empty string are falsy. -/
def isTruthyStr (o : Option String) : Bool :=
  match o with
  | some s => !(s == "")
  | none => false

/-- `searchParams.get(k) || d`: the default replaces both `null` and the
empty string. -/
def jsOrDefault (o : Option String) (d : String) : String :=
  match o with
  | some s => if s == "" then d else s
  | none => d

/-! ## src/utils/errors.ts and route.ts query parsing -/

/-- The raw query parameters of one request, each `searchParams.get`
result being `null` (`none`) or a string. -/
structure RouteQuery where
  page : Option String := none
  limit : Option String := none
  sortBy : Option String := none
  includeBookmarks : Option String := none
  minSentiment : Option String := none
  maxAge : Option String := none
deriving DecidableEq, Repr

/-- `validatePagination` (errors.ts lines 31-35):
`page = Math.max(1, parseInt(get('page') || '1'))`,
`limit = Math.max(1, Math.min(100, parseInt(get('limit') || '20')))`.
A non-numeric parameter yields `NaN` (`none`); the function never
throws. -/
def validatePagination (q : RouteQuery) : Option Int × Option Int :=
  (jsMaxI 1 (parseIntJS (jsOrDefault q.page "1")),
   jsMaxI 1 (jsMinI 100 (parseIntJS (jsOrDefault q.limit "20"))))

/-- The effective request parameters after route.ts lines 117-133.
`minSentiment` is `none` when the parameter was not supplied (JS
`undefined`); the inner option is the possibly-NaN parsed value.
`maxAge` is the possibly-NaN clamped value. -/
structure EffectiveParams where
  page : Option Int
  limit : Option Int
  includeBookmarks : Bool
  sortBy : SortBy
  minSentiment : Option (Option ℚ)
  maxAge : Option Int
deriving DecidableEq, Repr

/-- Query parsing of the handler (route.ts lines 117-133):
`validatePagination`, the `sortBy` / `includeBookmarks` flags, the
clamped `minSentiment` and `maxAge`, then the two `isNaN` rejection
checks — which cover `minSentiment` and `maxAge` only, not `page` or
`limit`. -/
def parseEffectiveParams (q : RouteQuery) : Except String EffectiveParams :=
  let pl := validatePagination q
  let includeBookmarks := q.includeBookmarks == some "true"
  let sortBy := if q.sortBy == some "latest" then SortBy.latest else SortBy.relevance
  let minSentiment : Option (Option ℚ) :=
    if isTruthyStr q.minSentiment then
      some (jsMaxQ (-1) (jsMinQ 1 (parseFloatJS (q.minSentiment.getD ""))))
    else none
  let maxAge : Option Int := jsMaxI 1 (jsMinI 720 (parseIntJS (jsOrDefault q.maxAge "168")))
  if isTruthyStr q.minSentiment && (parseFloatJS (q.minSentiment.getD "")).isNone then
    Except.error "Invalid minSentiment parameter: must be a number between -1 and 1"
  else if isTruthyStr q.maxAge && (parseIntJS (q.maxAge.getD "")).isNone then
    Except.error "Invalid maxAge parameter: must be a number between 1 and 720"
  else
    Except.ok { page := pl.1, limit := pl.2, includeBookmarks, sortBy, minSentiment, maxAge }

/-! ## src/utils/cache.ts -/

/-- The value side of the heterogeneous `Map` in cache.ts. -/
inductive CacheValue where
  | interests (data : List UserInterest)
  | portfolio (data : List UserPortfolio)
  | articles (data : List DatabaseNewsArticle)
deriving DecidableEq, Repr

/-- The module-level `const cache = new Map()` (cache.ts line 3),
modelled as an insertion-ordered association list with unique keys. -/
abbrev CacheMap := List (String × CacheValue)

/-- `Map.prototype.get`: the value at the key, or `undefined` (`none`). -/
def mapGet (m : CacheMap) (k : String) : Option CacheValue :=
  (m.find? (fun p => p.1 == k)).map (fun p => p.2)

/-- `Map.prototype.set`: overwrite in place when the key exists,
otherwise append a new entry. -/
def mapSet (m : CacheMap) (k : String) (v : CacheValue) : CacheMap :=
  if m.any (fun p => p.1 == k) then
    m.map (fun p => if p.1 == k then (k, v) else p)
  else m ++ [(k, v)]

/-- `getCachedUserInterests` (cache.ts lines 5-7). -/
def getCachedUserInterests (m : CacheMap) (userId : String) : Option CacheValue :=
  mapGet m ("interests_" ++ userId)

/-- `cacheUserInterests` (cache.ts lines 9-11). -/
def cacheUserInterests (m : CacheMap) (userId : String) (data : List UserInterest) : CacheMap :=
  mapSet m ("interests_" ++ userId) (CacheValue.interests data)

/-- `getCachedUserPortfolio` (cache.ts lines 13-15). -/
def getCachedUserPortfolio (m : CacheMap) (userId : String) : Option CacheValue :=
  mapGet m ("portfolio_" ++ userId)

/-- `cacheUserPortfolio` (cache.ts lines 17-19). -/
def cacheUserPortfolio (m : CacheMap) (userId : String) (data : List UserPortfolio) : CacheMap :=
  mapSet m ("portfolio_" ++ userId) (CacheValue.portfolio data)

/-! ## src/utils/database.ts — accessors -/

/-- The `{ data, error }` shape of a Supabase query response. -/
structure SupaResp (α : Type) where
  data : Option α
  error : Option String
deriving DecidableEq, Repr

/-- `fetchUserInterests` (database.ts): on error, warn and return `[]`;
otherwise `data || []`. -/
def fetchUserInterests (resp : SupaResp (List UserInterest)) : List UserInterest :=
  match resp.error with
  | some _ => []
  | none => resp.data.getD []

/-- `fetchUserPortfolio` (database.ts): on error return `[]`. -/
def fetchUserPortfolio (resp : SupaResp (List UserPortfolio)) : List UserPortfolio :=
  match resp.error with
  | some _ => []
  | none => resp.data.getD []

/-- `fetchUserNewsHistory` (database.ts): on error return `[]`.  The
`limit` argument is applied by the store (`.limit(limit)`), so the
response already reflects it. -/
def fetchUserNewsHistory (resp : SupaResp (List UserNewsHistory)) (_limit : Int) :
    List UserNewsHistory :=
  match resp.error with
  | some _ => []
  | none => resp.data.getD []

/-- `fetchUserBookmarks` (database.ts): empty id list short-circuits to
an empty set; on error an empty set; otherwise the set of
`bookmark.article_id` values of the rows. -/
def fetchUserBookmarks (resp : SupaResp (List String)) (articleIds : List String) :
    Finset String :=
  if articleIds.isEmpty then ∅
  else
    match resp.error with
    | some _ => ∅
    | none => (resp.data.getD []).toFinset

/-- ASCII lowercase of one character (the `toLowerCase` mapping on the
ASCII range, which covers the stored sentiment labels). -/
def toLowerChar (c : Char) : Char :=
  if 'A' ≤ c ∧ c ≤ 'Z' then Char.ofNat (c.toNat + 32) else c

/-- JavaScript `String.prototype.toLowerCase` on ASCII strings. -/
def toLowerJS (s : String) : String := String.mk (s.data.map toLowerChar)

/-- `mapSentimentToScore` (database.ts): `positive → 0.7`,
`negative → -0.3`, anything else (including a missing label, via the
optional chain) `→ 0`. -/
def mapSentimentToScore (sentiment : Option String) : ℚ :=
  match sentiment with
  | some s =>
      if toLowerJS s == "positive" then 7/10
      else if toLowerJS s == "negative" then -3/10
      else 0
  | none => 0

/-- `transformSupabaseToFlutter` (database.ts): maps a raw row to the
Flutter-compatible shape.  `source_domain || category || 'Unknown'`
treats `null` and the empty string as falsy; the `keywords` union is
embedded by its array case (joined with commas). -/
def transformSupabaseToFlutter (a : SupabaseNewsArticle) : DatabaseNewsArticle :=
  { id := a.id
    title := a.title
    summary := a.summary
    content := a.content
    url := a.url
    source := jsOrDefault a.source_domain (jsOrDefault a.category "Unknown")
    published_at := a.published_at
    keywords := String.intercalate "," a.keywords
    image_url := none
    sentiment_score := mapSentimentToScore a.sentiment
    sentiment_label := jsOrDefault a.sentiment "neutral"
    relevance_score := none }

/-- The filter bundle passed to `fetchNewsArticles`. -/
structure NewsFilters where
  limit : Option Int := none
  maxAge : Option Int := none
  page : Option Int := none
  minSentiment : Option ℚ := none
deriving DecidableEq, Repr

/-- `fetchNewsArticles` (database.ts): embeds the accessor together
with the semantics of the Supabase query it builds over the
`news_articles` table (`table`): rows with `is_active = true`, then —
when `filters.maxAge` is truthy — rows with `published_at` at or after
`now - maxAge` hours, ordered by `published_at` descending, then the
inclusive `range(from, to)` slice.  On a store error the accessor
returns `[]`; otherwise the rows are transformed and, when
`filters.minSentiment` is given, filtered by the *normalized*
`sentiment_score >= minSentiment`. -/
def fetchNewsArticles (table : List SupabaseNewsArticle) (dbError : Option String)
    (now : Int) (filters : NewsFilters) : List DatabaseNewsArticle :=
  let limit := filters.limit.getD 20
  let page := filters.page.getD 1
  let fromIdx := (page - 1) * limit
  let toIdx := fromIdx + limit - 1
  let rows := table.filter (fun r => r.is_active)
  let rows := match filters.maxAge with
    | some m =>
        if m ≠ 0 then
          rows.filter (fun (r : SupabaseNewsArticle) => decide (now - m * 3600000 ≤ r.published_at))
        else rows
    | none => rows
  let rows := rows.mergeSort (fun a b => decide (b.published_at ≤ a.published_at))
  let rows := (rows.drop fromIdx.toNat).take (toIdx + 1 - fromIdx).toNat
  match dbError with
  | some _ => []
  | none =>
      let transformedArticles := rows.map transformSupabaseToFlutter
      match filters.minSentiment with
      | some ms => transformedArticles.filter (fun a => decide (ms ≤ a.sentiment_score))
      | none => transformedArticles

/-! ## Concrete sample values -/

/-- A concrete article for witnesses and counterexamples. -/
def mkArticle (id : String) (published_at : Int) : DatabaseNewsArticle :=
  { id := id
    title := "t"
    summary := "s"
    content := "c"
    url := "u"
    source := "srcd"
    published_at := published_at
    keywords := ""
    image_url := none
    sentiment_score := 0
    sentiment_label := "neutral"
    relevance_score := none }

/-- A concrete options bundle with `minRelevanceScore = 0.5`. -/
def optsHalf : RankOptions :=
  { minRelevanceScore := some (1/2)
    maxAge := some 24
    includeBookmarks := some false
    weights := some handlerWeights
    context := none }

/-! ## Comparator facts -/

lemma relevanceLe_trans (a b c : DatabaseNewsArticle) :
    relevanceLe a b → relevanceLe b c → relevanceLe a c := by
  simp only [relevanceLe, decide_eq_true_eq]
  exact fun h1 h2 => le_trans h2 h1

lemma relevanceLe_total (a b : DatabaseNewsArticle) :
    relevanceLe a b || relevanceLe b a := by
  simp only [relevanceLe, Bool.or_eq_true, decide_eq_true_eq]
  exact le_total _ _

lemma latestLe_trans (a b c : DatabaseNewsArticle) :
    latestLe a b → latestLe b c → latestLe a c := by
  simp only [latestLe, decide_eq_true_eq]
  exact fun h1 h2 => le_trans h2 h1

lemma latestLe_total (a b : DatabaseNewsArticle) :
    latestLe a b || latestLe b a := by
  simp only [latestLe, Bool.or_eq_true, decide_eq_true_eq]
  exact le_total _ _

/-- Unfolded form of `parseEffectiveParams`. -/
lemma parseEffectiveParams_eq (q : RouteQuery) :
    parseEffectiveParams q =
      if isTruthyStr q.minSentiment && (parseFloatJS (q.minSentiment.getD "")).isNone then
        Except.error "Invalid minSentiment parameter: must be a number between -1 and 1"
      else if isTruthyStr q.maxAge && (parseIntJS (q.maxAge.getD "")).isNone then
        Except.error "Invalid maxAge parameter: must be a number between 1 and 720"
      else
        Except.ok
          { page := (validatePagination q).1
            limit := (validatePagination q).2
            includeBookmarks := q.includeBookmarks == some "true"
            sortBy := if q.sortBy == some "latest" then SortBy.latest else SortBy.relevance
            minSentiment :=
              if isTruthyStr q.minSentiment then
                some (jsMaxQ (-1) (jsMinQ 1 (parseFloatJS (q.minSentiment.getD ""))))
              else none
            maxAge := jsMaxI 1 (jsMinI 720 (parseIntJS (jsOrDefault q.maxAge "168"))) } := rfl

/-- Overwriting an existing key: the in-place replacement is found. -/
lemma mapGet_replace (m : CacheMap) (k : String) (v : CacheValue)
    (h : m.any (fun p => p.1 == k) = true) :
    mapGet (m.map (fun p => if p.1 == k then (k, v) else p)) k = some v := by
  induction m with
  | nil => simp at h
  | cons p t ih =>
    cases hp : (p.1 == k) with
    | true =>
        simp only [List.map_cons]
        rw [if_pos hp]
        unfold mapGet
        rw [List.find?_cons_of_pos _ (by simp)]
        rfl
    | false =>
        simp only [List.any_cons, hp, Bool.false_or] at h
        have ht := ih h
        simp only [List.map_cons]
        rw [if_neg (by simp [hp])]
        unfold mapGet
        rw [List.find?_cons_of_neg _ (by simp [hp])]
        exact ht

/-- Appending a fresh key: the appended entry is found. -/
lemma mapGet_append_fresh (m : CacheMap) (k : String) (v : CacheValue)
    (h : m.any (fun p => p.1 == k) = false) :
    mapGet (m ++ [(k, v)]) k = some v := by
  induction m with
  | nil => simp [mapGet]
  | cons p t ih =>
    simp only [List.any_cons, Bool.or_eq_false_iff] at h
    have ht := ih h.2
    rw [List.cons_append]
    unfold mapGet
    rw [List.find?_cons_of_neg _ (by simp [h.1])]
    exact ht

/-- `Map.get` after `Map.set` of the same key returns the set value. -/
lemma mapGet_mapSet_self (m : CacheMap) (k : String) (v : CacheValue) :
    mapGet (mapSet m k v) k = some v := by
  unfold mapSet
  by_cases h : m.any (fun p => p.1 == k) = true
  · rw [if_pos h]
    exact mapGet_replace m k v h
  · rw [if_neg h]
    exact mapGet_append_fresh m k v (Bool.eq_false_iff.mpr h)

/-- `Map.get` of a key absent from the map — in any cache state — is
`undefined` (`none`). -/
lemma mapGet_eq_none_of_absent (m : CacheMap) (k : String)
    (h : m.any (fun p => p.1 == k) = false) :
    mapGet m k = none := by
  induction m with
  | nil => rfl
  | cons p t ih =>
      simp only [List.any_cons, Bool.or_eq_false_iff] at h
      unfold mapGet
      rw [List.find?_cons_of_neg _ (by simp [h.1])]
      exact ih h.2

/-! ## Claims -/

/-- Claim C1: ranking is deterministic — for identical article list,
interest set, portfolio set, interaction-history set and weights, two
calls of `rankAndFilterArticles` (and of `calculateRelevanceScore`)
produce identical scores and identical ordered output.  The code
violates this: both functions score with `Math.random()`, so two runs
whose declared inputs are identical but whose ambient random draws
differ (here `0` versus `1/2`) return different results. -/
theorem rankAndFilterArticles_not_deterministic :
    rankAndFilterArticles (fun _ => 0) [mkArticle "a1" 100] [] [] [] optsHalf ≠
      rankAndFilterArticles (fun _ => 1/2) [mkArticle "a1" 100] [] [] [] optsHalf ∧
    calculateRelevanceScore (fun _ => 0) (mkArticle "a1" 100) [] [] [] ≠
      calculateRelevanceScore (fun _ => 1/2) (mkArticle "a1" 100) [] [] [] := by
  have h1 : rankAndFilterArticles (fun _ => 0) [mkArticle "a1" 100] [] [] [] optsHalf =
      [{ mkArticle "a1" 100 with relevance_score := some (1/5) }] := by
    simp [rankAndFilterArticles, scoreArticles, List.enum, List.enumFrom, List.mergeSort]
  have h2 : rankAndFilterArticles (fun _ => 1/2) [mkArticle "a1" 100] [] [] [] optsHalf =
      [{ mkArticle "a1" 100 with relevance_score := some (3/5) }] := by
    simp [rankAndFilterArticles, scoreArticles, List.enum, List.enumFrom, List.mergeSort]
    norm_num
  refine ⟨by rw [h1, h2]; simp; norm_num, ?_⟩
  simp only [calculateRelevanceScore]
  norm_num

/-- Claim C2: every article scoring strictly below
`options.minRelevanceScore` is absent from the output of
`rankAndFilterArticles`.  The code violates this: the options bundle is
ignored and no filter of any kind runs.  Here the single article scores
`0.2`, strictly below the requested threshold `0.5`, yet the output
still contains it. -/
theorem minRelevanceScore_filter_not_applied :
    rankAndFilterArticles (fun _ => 0) [mkArticle "a1" 100] [] [] [] optsHalf =
      [{ mkArticle "a1" 100 with relevance_score := some (1/5) }] ∧
    (1/5 : ℚ) < optsHalf.minRelevanceScore.getD 0 := by
  constructor
  · simp [rankAndFilterArticles, scoreArticles, List.enum, List.enumFrom, List.mergeSort]
  · norm_num [optsHalf]

/-- Claim C3 (counterexample): the claim requires equal-score ties to be
ordered by publication timestamp descending, then identifier ascending.
Here both articles draw the same random score `0.6`; the article with
the *later* timestamp (`"a"`, published at `200`) is supplied second and
stays second — the code keeps input order on ties (stable sort) and
implements no timestamp/id tie-break. -/
theorem tie_break_counterexample :
    (rankAndFilterArticles (fun _ => 1/2) [mkArticle "b" 100, mkArticle "a" 200]
        [] [] [] optsHalf).map (fun a => (a.id, a.relevance_score)) =
      [("b", some (3/5)), ("a", some (3/5))] ∧
    (mkArticle "b" 100).published_at < (mkArticle "a" 200).published_at := by
  constructor
  · simp [rankAndFilterArticles, scoreArticles, List.enum, List.enumFrom,
      List.mergeSort, List.merge, relevanceLe, mkArticle]
    norm_num
  · norm_num [mkArticle]

/-- Claim C3 (amended): the output of `rankAndFilterArticles` is sorted
by relevance score descending and is a permutation of the scored input;
when two articles have equal scores, their relative order is their order
in the scored input list (the sort is stable) — not the claimed
publication-timestamp/identifier tie-break. -/
theorem rank_sorted_desc_and_stable (rng : RandomStream)
    (articles : List DatabaseNewsArticle) (ui : List UserInterest)
    (up : List UserPortfolio) (uh : List UserNewsHistory) (options : RankOptions) :
    (rankAndFilterArticles rng articles ui up uh options).Pairwise
      (fun a b => b.relevance_score.getD 0 ≤ a.relevance_score.getD 0) ∧
    (rankAndFilterArticles rng articles ui up uh options).Perm
      (scoreArticles rng articles) ∧
    (∀ a b : DatabaseNewsArticle,
      [a, b].Sublist (scoreArticles rng articles) →
      a.relevance_score.getD 0 = b.relevance_score.getD 0 →
      [a, b].Sublist (rankAndFilterArticles rng articles ui up uh options)) := by
  refine ⟨?_, ?_, ?_⟩
  · have h := List.sorted_mergeSort relevanceLe_trans relevanceLe_total
      (scoreArticles rng articles)
    exact h.imp (fun hab => by simpa [relevanceLe] using hab)
  · exact List.mergeSort_perm _ _
  · intro a b hsub heq
    exact List.pair_sublist_mergeSort relevanceLe_trans relevanceLe_total
      (by simp [relevanceLe, heq]) hsub

/-- Witness for the amended C3 at a concrete input: two articles with
equal scores keep their input order in the ranked output. -/
theorem rank_sorted_desc_and_stable_witness :
    [ { mkArticle "b" 100 with relevance_score := some (3/5) },
      { mkArticle "a" 200 with relevance_score := some (3/5) } ].Sublist
      (rankAndFilterArticles (fun _ => 1/2) [mkArticle "b" 100, mkArticle "a" 200]
        [] [] [] optsHalf) := by
  have hs : scoreArticles (fun _ => 1/2) [mkArticle "b" 100, mkArticle "a" 200] =
      [ { mkArticle "b" 100 with relevance_score := some (3/5) },
        { mkArticle "a" 200 with relevance_score := some (3/5) } ] := by
    simp [scoreArticles, List.enum, List.enumFrom]
    norm_num
  exact (rank_sorted_desc_and_stable (fun _ => 1/2)
      [mkArticle "b" 100, mkArticle "a" 200] [] [] [] optsHalf).2.2 _ _
    (hs ▸ List.Sublist.refl _) (by simp)

/-- Claim C4: with `sortBy=latest` the handler performs no relevance
scoring — the result is independent of the random draws (hence of any
score) — and the output is ordered by publication timestamp descending:
any article published strictly later than another appears strictly
before it. -/
theorem latest_mode_orders_by_published_desc (rng rng2 : RandomStream)
    (articles : List DatabaseNewsArticle) (ui : List UserInterest)
    (up : List UserPortfolio) (uh : List UserNewsHistory) (maxAge : ℚ)
    (ib : Bool) (A B : DatabaseNewsArticle) (hA : A ∈ articles) (hB : B ∈ articles)
    (hpub : B.published_at < A.published_at) :
    handlerRankedArticles SortBy.latest rng articles ui up uh maxAge ib =
      handlerRankedArticles SortBy.latest rng2 articles ui up uh maxAge ib ∧
    (∃ i j : ℕ, i < j ∧
      (handlerRankedArticles SortBy.latest rng articles ui up uh maxAge ib)[i]? = some A ∧
      (handlerRankedArticles SortBy.latest rng articles ui up uh maxAge ib)[j]? = some B) := by
  constructor
  · rfl
  · have hout : handlerRankedArticles SortBy.latest rng articles ui up uh maxAge ib =
        articles.mergeSort latestLe := rfl
    rw [hout]
    have hsorted := List.sorted_mergeSort latestLe_trans latestLe_total articles
    rw [List.pairwise_iff_getElem] at hsorted
    have hA' : A ∈ articles.mergeSort latestLe := List.mem_mergeSort.mpr hA
    have hB' : B ∈ articles.mergeSort latestLe := List.mem_mergeSort.mpr hB
    obtain ⟨i, hi, hgi⟩ := List.mem_iff_getElem.mp hA'
    obtain ⟨j, hj, hgj⟩ := List.mem_iff_getElem.mp hB'
    have hij : i < j := by
      rcases lt_trichotomy i j with h | h | h
      · exact h
      · exfalso
        subst h
        have hAB : A = B := by rw [← hgi, ← hgj]
        rw [hAB] at hpub
        exact lt_irrefl _ hpub
      · exfalso
        have := hsorted j i hj hi h
        simp only [latestLe, decide_eq_true_eq, hgi, hgj] at this
        exact absurd this (not_le.mpr hpub)
    refine ⟨i, j, hij, ?_, ?_⟩
    · rw [List.getElem?_eq_getElem hi, hgi]
    · rw [List.getElem?_eq_getElem hj, hgj]

/-- Witness for C4 at a concrete input: with two articles supplied in
timestamp-ascending order, `sortBy=latest` places the later-published
article first, for any two random streams. -/
theorem latest_mode_orders_by_published_desc_witness :
    ∃ i j : ℕ, i < j ∧
      (handlerRankedArticles SortBy.latest (fun _ => 0)
        [mkArticle "b" 100, mkArticle "a" 200] [] [] [] 168 false)[i]? =
        some (mkArticle "a" 200) ∧
      (handlerRankedArticles SortBy.latest (fun _ => 0)
        [mkArticle "b" 100, mkArticle "a" 200] [] [] [] 168 false)[j]? =
        some (mkArticle "b" 100) :=
  (latest_mode_orders_by_published_desc (fun _ => 0) (fun _ => 1)
    [mkArticle "b" 100, mkArticle "a" 200] [] [] [] 168 false
    (mkArticle "a" 200) (mkArticle "b" 100)
    (by simp) (by simp) (by norm_num [mkArticle])).2

/-- Claim C5: for `page ≥ 1` and `limit ∈ [1,100]`, the returned page
holds at most `limit` items (the slice from `(page-1)*limit` to
`page*limit`), `hasMore` is true iff `page*limit < total`, and a page
beyond the available data yields an empty list with `hasMore = false`
rather than an error. -/
theorem pagination_contract {α : Type} (ranked : List α) (page limit : ℕ)
    (hpage : 1 ≤ page) (hlim1 : 1 ≤ limit) (hlim2 : limit ≤ 100) :
    (paginate ranked page limit).length ≤ limit ∧
    (pageHasMore ranked page limit = true ↔ page * limit < ranked.length) ∧
    (ranked.length ≤ (page - 1) * limit →
      paginate ranked page limit = [] ∧ pageHasMore ranked page limit = false) := by
  obtain ⟨p, rfl⟩ : ∃ p, page = p + 1 := ⟨page - 1, by omega⟩
  have hend : (p + 1 - 1) * limit + limit = (p + 1) * limit := by
    simp [Nat.succ_mul]
  refine ⟨?_, ?_, ?_⟩
  · simp [paginate, List.length_take]
  · simp only [pageHasMore, decide_eq_true_eq, hend]
  · intro hbeyond
    constructor
    · simp only [paginate]
      rw [List.drop_eq_nil_of_le (by simpa using hbeyond)]
      simp
    · simp only [pageHasMore, decide_eq_false_iff_not, not_lt, hend]
      calc ranked.length ≤ (p + 1 - 1) * limit := hbeyond
        _ ≤ (p + 1) * limit := by simp [Nat.mul_le_mul_right]

/-- Witness for C5 at a concrete input: 25 ranked items, `limit = 10`,
`page = 4` (beyond the data). -/
theorem pagination_contract_witness :
    (paginate (List.range 25) 4 10).length ≤ 10 ∧
    (pageHasMore (List.range 25) 4 10 = true ↔ 4 * 10 < (List.range 25).length) ∧
    ((List.range 25).length ≤ (4 - 1) * 10 →
      paginate (List.range 25) 4 10 = [] ∧ pageHasMore (List.range 25) 4 10 = false) :=
  pagination_contract (List.range 25) 4 10 (by norm_num) (by norm_num) (by norm_num)

/-- Claim C6 (counterexample): the claim requires a malformed
(non-numeric) pagination value to be rejected with an error and the
effective `page` to satisfy `page ≥ 1`.  With `page=x` the handler
neither throws nor clamps: `parseInt('x')` is `NaN`, `Math.max(1, NaN)`
is `NaN`, and the request proceeds with `page = NaN` (modelled `none`) —
the `isNaN` rejection checks cover only `minSentiment` and `maxAge`. -/
theorem malformed_page_not_rejected :
    parseEffectiveParams { page := some "x" } =
      Except.ok { page := none, limit := some 20, includeBookmarks := false,
                  sortBy := SortBy.relevance, minSentiment := none, maxAge := some 168 } := by
  rfl

/-- Claim C6 (amended): numeric parameters are clamped as documented —
any numeric effective `page` is ≥ 1, `limit` lands in `[1,100]`,
`maxAge` in `[1,720]` and a supplied `minSentiment` in `[-1,1]` — and a
malformed `minSentiment` or `maxAge` is rejected with an error; but a
malformed `page` or `limit` is NOT rejected: it silently becomes `NaN`
(modelled `none`), escaping the `page ≥ 1` clamp. -/
theorem query_clamping_amended (q : RouteQuery) :
    (∀ eff : EffectiveParams, parseEffectiveParams q = Except.ok eff →
      (∀ n : Int, eff.page = some n → 1 ≤ n) ∧
      (∀ n : Int, eff.limit = some n → 1 ≤ n ∧ n ≤ 100) ∧
      (∀ m : Int, eff.maxAge = some m → 1 ≤ m ∧ m ≤ 720) ∧
      eff.maxAge.isSome = true ∧
      (∀ os : Option ℚ, eff.minSentiment = some os →
        ∃ v : ℚ, os = some v ∧ -1 ≤ v ∧ v ≤ 1)) ∧
    (∀ s : String, q.minSentiment = some s → s ≠ "" → parseFloatJS s = none →
      ∃ e : String, parseEffectiveParams q = Except.error e) ∧
    (∀ s : String, q.maxAge = some s → s ≠ "" → parseIntJS s = none →
      ∃ e : String, parseEffectiveParams q = Except.error e) := by
  refine ⟨?_, ?_, ?_⟩
  · intro eff hok
    rw [parseEffectiveParams_eq] at hok
    by_cases hc1 : (isTruthyStr q.minSentiment &&
        (parseFloatJS (q.minSentiment.getD "")).isNone) = true
    · rw [if_pos hc1] at hok
      exact absurd hok (by simp)
    rw [if_neg hc1] at hok
    by_cases hc2 : (isTruthyStr q.maxAge && (parseIntJS (q.maxAge.getD "")).isNone) = true
    · rw [if_pos hc2] at hok
      exact absurd hok (by simp)
    rw [if_neg hc2, Except.ok.injEq] at hok
    subst hok
    refine ⟨?_, ?_, ?_, ?_, ?_⟩
    · intro n hn
      simp only [validatePagination, jsMaxI] at hn
      cases hx : parseIntJS (jsOrDefault q.page "1") with
      | none => rw [hx] at hn; simp at hn
      | some v =>
          rw [hx] at hn
          simp at hn
          rw [← hn]
          exact le_max_left _ _
    · intro n hn
      simp only [validatePagination, jsMaxI, jsMinI] at hn
      cases hx : parseIntJS (jsOrDefault q.limit "20") with
      | none => rw [hx] at hn; simp at hn
      | some v =>
          rw [hx] at hn
          simp at hn
          rw [← hn]
          exact ⟨le_max_left _ _, max_le (by norm_num) (min_le_left _ _)⟩
    · intro m hm
      simp only [jsMaxI, jsMinI] at hm
      cases hx : parseIntJS (jsOrDefault q.maxAge "168") with
      | none => rw [hx] at hm; simp at hm
      | some v =>
          rw [hx] at hm
          simp at hm
          rw [← hm]
          exact ⟨le_max_left _ _, max_le (by norm_num) (min_le_left _ _)⟩
    · simp only [jsMaxI, jsMinI]
      cases hq : q.maxAge with
      | none => simp [jsOrDefault, show parseIntJS "168" = some 168 from rfl]
      | some s =>
          by_cases hse : s = ""
          · simp [hq, jsOrDefault, hse, show parseIntJS "168" = some 168 from rfl]
          · cases hx : parseIntJS s with
            | some v => simp [hq, jsOrDefault, hse, hx]
            | none =>
                exfalso
                apply hc2
                simp [hq, isTruthyStr, hse, hx]
    · intro os hos
      by_cases ht : isTruthyStr q.minSentiment = true
      · rw [if_pos ht] at hos
        cases hx : parseFloatJS (q.minSentiment.getD "") with
        | none => rw [hx] at hc1; simp [ht] at hc1
        | some v =>
            rw [hx] at hos
            refine ⟨max (-1) (min 1 v), ?_, le_max_left _ _,
              max_le (by norm_num) (min_le_left _ _)⟩
            simp only [jsMaxQ, jsMinQ] at hos
            simp at hos
            exact hos.symm
      · rw [if_neg ht] at hos
        exact absurd hos (by simp)
  · intro s hs hne hparse
    refine ⟨"Invalid minSentiment parameter: must be a number between -1 and 1", ?_⟩
    rw [parseEffectiveParams_eq, if_pos (by simp [hs, isTruthyStr, hne, hparse])]
  · intro s hs hne hparse
    by_cases hc1 : (isTruthyStr q.minSentiment &&
        (parseFloatJS (q.minSentiment.getD "")).isNone) = true
    · refine ⟨"Invalid minSentiment parameter: must be a number between -1 and 1", ?_⟩
      rw [parseEffectiveParams_eq, if_pos hc1]
    · refine ⟨"Invalid maxAge parameter: must be a number between 1 and 720", ?_⟩
      rw [parseEffectiveParams_eq, if_neg hc1,
        if_pos (by simp [hs, isTruthyStr, hne, hparse])]

/-- Witness for the amended C6 at a concrete input: the empty query
yields `page = 1`, `limit = 20`, `maxAge = 168`, all inside the
documented bounds. -/
theorem query_clamping_amended_witness :
    (1 : Int) ≤ 1 ∧ ((1 : Int) ≤ 20 ∧ (20 : Int) ≤ 100) ∧
    ((1 : Int) ≤ 168 ∧ (168 : Int) ≤ 720) := by
  have h := (query_clamping_amended {}).1
    { page := some 1, limit := some 20, includeBookmarks := false,
      sortBy := SortBy.relevance, minSentiment := none, maxAge := some 168 } rfl
  exact ⟨h.1 1 rfl, h.2.1 20 rfl, h.2.2.1 168 rfl⟩

/-- Claim C7: cache round-trip — after `set(k, v)`, `get(k)` returns
`v` (the most recent set wins, whether or not `k` was already present,
and nothing expires); for a key never set — absent from an arbitrary
cache state, the empty cache included — `get` reads as absent (`none`,
never an error); and the user-data wrappers inherit the round-trip. -/
theorem cache_roundtrip (m : CacheMap) (k : String) (v : CacheValue)
    (userId : String) (d : List UserInterest) (dp : List UserPortfolio) :
    mapGet (mapSet m k v) k = some v ∧
    (m.any (fun p => p.1 == k) = false → mapGet m k = none) ∧
    mapGet ([] : CacheMap) k = none ∧
    getCachedUserInterests (cacheUserInterests m userId d) userId =
      some (CacheValue.interests d) ∧
    getCachedUserPortfolio (cacheUserPortfolio m userId dp) userId =
      some (CacheValue.portfolio dp) := by
  refine ⟨mapGet_mapSet_self m k v, mapGet_eq_none_of_absent m k, rfl, ?_, ?_⟩
  · exact mapGet_mapSet_self m ("interests_" ++ userId) (CacheValue.interests d)
  · exact mapGet_mapSet_self m ("portfolio_" ++ userId) (CacheValue.portfolio dp)

/-- Witness for C7 at a concrete input: a populated cache holding an
interests entry for one user; the portfolio key of another user was
never set and reads as absent. -/
theorem cache_roundtrip_witness :
    mapGet [("interests_u1", CacheValue.interests [])] "portfolio_u2" = none :=
  (cache_roundtrip [("interests_u1", CacheValue.interests [])] "portfolio_u2"
    (CacheValue.interests []) "u1" [] []).2.1 (by decide)

/-- Claim C8: every data accessor (interests, portfolio, history,
articles, bookmark membership) returns an empty container when the
backing store reports a fetch error, instead of propagating the
failure. -/
theorem accessors_empty_on_error (e : String)
    (di : Option (List UserInterest)) (dp : Option (List UserPortfolio))
    (dh : Option (List UserNewsHistory)) (lim : Int)
    (db : Option (List String)) (ids : List String)
    (table : List SupabaseNewsArticle) (now : Int) (filters : NewsFilters) :
    fetchUserInterests ⟨di, some e⟩ = [] ∧
    fetchUserPortfolio ⟨dp, some e⟩ = [] ∧
    fetchUserNewsHistory ⟨dh, some e⟩ lim = [] ∧
    fetchNewsArticles table (some e) now filters = [] ∧
    fetchUserBookmarks ⟨db, some e⟩ ids = ∅ := by
  refine ⟨rfl, rfl, rfl, ?_, ?_⟩
  · cases filters.minSentiment <;> rfl
  · cases ids <;> rfl

/-- Claim C9: the article accessor returns only articles that are
active and inside the `maxAge` recency window — an older article never
enters the candidate pool — and the `minSentiment` filter applies to the
*normalized* sentiment score (`positive → 0.7`, `negative → -0.3`,
otherwise `0`), so every returned article satisfies it when given. -/
theorem fetchNewsArticles_filters_candidates (table : List SupabaseNewsArticle)
    (dbError : Option String) (now : Int) (filters : NewsFilters) (m : Int)
    (hmax : filters.maxAge = some m) (hm : m ≠ 0) (a : DatabaseNewsArticle)
    (ha : a ∈ fetchNewsArticles table dbError now filters) :
    ∃ r ∈ table, r.is_active = true ∧ now - m * 3600000 ≤ r.published_at ∧
      a = transformSupabaseToFlutter r ∧
      a.sentiment_score = mapSentimentToScore r.sentiment ∧
      (∀ ms : ℚ, filters.minSentiment = some ms → ms ≤ a.sentiment_score) := by
  unfold fetchNewsArticles at ha
  rw [hmax] at ha
  simp only [hm, if_true, ne_eq, not_false_eq_true, if_pos] at ha
  cases hde : dbError with
  | some e => rw [hde] at ha; simp at ha
  | none =>
      rw [hde] at ha
      have hmem : a ∈ (((((table.filter (fun r => r.is_active)).filter
            (fun r => decide (now - m * 3600000 ≤ r.published_at))).mergeSort
            (fun a b => decide (b.published_at ≤ a.published_at))).drop
            (((filters.page.getD 1 - 1) * filters.limit.getD 20).toNat)).take
            ((((filters.page.getD 1 - 1) * filters.limit.getD 20) +
              filters.limit.getD 20 - 1 + 1 -
              ((filters.page.getD 1 - 1) * filters.limit.getD 20)).toNat)).map
            transformSupabaseToFlutter ∧
          (∀ ms : ℚ, filters.minSentiment = some ms → ms ≤ a.sentiment_score) := by
        cases hms : filters.minSentiment with
        | some ms =>
            rw [hms] at ha
            obtain ⟨h1, h2⟩ := List.mem_filter.mp ha
            exact ⟨h1, fun ms2 hms2 => by cases hms2; exact of_decide_eq_true h2⟩
        | none =>
            rw [hms] at ha
            exact ⟨ha, fun ms2 hms2 => by cases hms2⟩
      obtain ⟨hmap, hcond⟩ := hmem
      obtain ⟨r, hr, rfl⟩ := List.mem_map.mp hmap
      have hr2 := List.mem_of_mem_take hr
      have hr3 := List.mem_of_mem_drop hr2
      have hr4 := List.mem_mergeSort.mp hr3
      obtain ⟨hr5, hcut⟩ := List.mem_filter.mp hr4
      obtain ⟨hrt, hact⟩ := List.mem_filter.mp hr5
      exact ⟨r, hrt, hact, of_decide_eq_true hcut, rfl, rfl, hcond⟩

/-- A concrete active, positive-sentiment row for the C9 witness. -/
def sampleRow : SupabaseNewsArticle :=
  { id := "r1"
    title := "t"
    summary := "s"
    content := "c"
    url := "u"
    published_at := 1000000
    category := some "econ"
    tags := []
    source_domain := some "src.example"
    author := none
    language := "ko"
    created_at := 0
    updated_at := 0
    summary_quality_score := 1
    is_active := true
    summary_lines := []
    sentiment := some "positive"
    impact_level := "low"
    keywords := ["k1", "k2"]
    related_stocks := []
    related_sectors := []
    ai_provider := "p"
    processed_at := 0 }

/-- The concrete filter bundle for the C9 witness. -/
def sampleFilters : NewsFilters :=
  { limit := some 20, maxAge := some 24, page := some 1, minSentiment := some (1/2) }

/-- Witness for C9 at a concrete input: a one-row table whose article
passes all three filters. -/
theorem fetchNewsArticles_filters_candidates_witness :
    ∃ r ∈ [sampleRow], r.is_active = true ∧
      (1000000 : Int) - 24 * 3600000 ≤ r.published_at ∧
      transformSupabaseToFlutter sampleRow = transformSupabaseToFlutter r ∧
      (transformSupabaseToFlutter sampleRow).sentiment_score =
        mapSentimentToScore r.sentiment ∧
      (∀ ms : ℚ, sampleFilters.minSentiment = some ms →
        ms ≤ (transformSupabaseToFlutter sampleRow).sentiment_score) := by
  have hrun : fetchNewsArticles [sampleRow] none 1000000 sampleFilters =
      [transformSupabaseToFlutter sampleRow] := by
    simp [fetchNewsArticles, sampleFilters, sampleRow, transformSupabaseToFlutter,
      mapSentimentToScore, List.mergeSort, jsOrDefault,
      show toLowerJS "positive" = "positive" from rfl]
    norm_num
  exact fetchNewsArticles_filters_candidates [sampleRow] none 1000000 sampleFilters
    24 rfl (by norm_num) (transformSupabaseToFlutter sampleRow)
    (by rw [hrun]; exact List.mem_singleton_self _)

/-- Claim C10 (implicit): every relevance score that the ranking pass
assigns lies in `[0.2, 1.0)` — given that each `Math.random()` draw lies
in `[0, 1)` — hence strictly exceeds the handler's fixed
`minRelevanceScore` of `0.05`, and the threshold can never exclude an
article: the ranked output retains every scored article and has the same
length as the input. -/
theorem relevance_scores_bounded (rng : RandomStream)
    (hr : ∀ i, 0 ≤ rng i ∧ rng i < 1) (articles : List DatabaseNewsArticle)
    (ui : List UserInterest) (up : List UserPortfolio) (uh : List UserNewsHistory)
    (maxAge : ℚ) (ib : Bool) :
    (∀ a ∈ handlerRankedArticles SortBy.relevance rng articles ui up uh maxAge ib,
      ∃ s : ℚ, a.relevance_score = some s ∧ 1/5 ≤ s ∧ s < 1 ∧
        (handlerRankOptions maxAge ib
          (createPersonalizationContext ui up uh articles)).minRelevanceScore.getD 0 < s) ∧
    (handlerRankedArticles SortBy.relevance rng articles ui up uh maxAge ib).length
      = articles.length ∧
    (∀ a ∈ scoreArticles rng articles,
      a ∈ handlerRankedArticles SortBy.relevance rng articles ui up uh maxAge ib) := by
  have hout : handlerRankedArticles SortBy.relevance rng articles ui up uh maxAge ib =
      (scoreArticles rng articles).mergeSort relevanceLe := rfl
  rw [hout]
  refine ⟨?_, ?_, ?_⟩
  · intro a ha
    have ha2 := List.mem_mergeSort.mp ha
    simp only [scoreArticles, List.mem_map] at ha2
    obtain ⟨⟨i, x⟩, hmem, rfl⟩ := ha2
    have h0 := (hr i).1
    have h1 := (hr i).2
    have hm0 : 0 ≤ rng i * (4/5) := mul_nonneg h0 (by norm_num)
    have hm1 : rng i * (4/5) < 4/5 := by nlinarith
    refine ⟨rng i * (4/5) + 1/5, rfl, by linarith, by linarith, ?_⟩
    simp only [handlerRankOptions, Option.getD_some]
    linarith
  · rw [List.length_mergeSort]
    simp [scoreArticles]
  · intro a ha
    exact List.mem_mergeSort.mpr ha

/-- Witness for C10 at a concrete input: one article, draw `1/2`; the
ranked output keeps the single article. -/
theorem relevance_scores_bounded_witness :
    (handlerRankedArticles SortBy.relevance (fun _ => 1/2) [mkArticle "a1" 100]
      [] [] [] 168 false).length = 1 :=
  (relevance_scores_bounded (fun _ => 1/2) (fun i => by norm_num)
    [mkArticle "a1" 100] [] [] [] 168 false).2.1

end InsightFlo
